import Mathlib

/-!
Shallow embedding of `src/ekf_localization_component.cpp` from the
`kalman_filter_localization` package.

The component wraps an EKF estimator object (`ekf_`), whose class is declared
in a header that is not part of this source tree.  The wrapper's own
behaviour — parameter handling, gating of every callback on the reception of
an initial pose, frame transformation of inertial samples, construction of
the measurement vectors and per-source variance vectors, the
relative-odometry composition, and pose broadcasting — is translated here
directly from the C++ source.  Calls into the estimator object are recorded
as a trace of `EkfOp` values; the few estimator operations a claim needs
(`setInitialX`, `getX`, the quaternion propagation inside the prediction
step) are modelled from the specification and say so in their doc comments.

Real-valued message fields are modelled as rationals (exact arithmetic); the
spec-modelled quaternion propagation, which divides by a square root, is
modelled over the reals.
-/

namespace KalmanFilterLocalization

/-- A 3-vector of message fields (`geometry_msgs` point / vector). -/
structure Vec3 where
  x : ℚ
  y : ℚ
  z : ℚ
  deriving DecidableEq

/-- A message quaternion, components ordered `(x, y, z, w)` as in
`geometry_msgs`.  A default-constructed message quaternion is `(0,0,0,1)`. -/
structure Quat4 where
  qx : ℚ
  qy : ℚ
  qz : ℚ
  qw : ℚ
  deriving DecidableEq

/-- A ROS time stamp: seconds and nanoseconds, as in `builtin_interfaces`. -/
structure Time where
  sec : ℤ
  nanosec : ℕ
  deriving DecidableEq

/-- A message header: stamp and frame id. -/
structure Header where
  stamp : Time
  frame_id : String
  deriving DecidableEq

/-- A pose: position plus orientation quaternion. -/
structure Pose where
  position : Vec3
  orientation : Quat4
  deriving DecidableEq

/-- `geometry_msgs` pose-with-header message. -/
structure PoseStamped where
  header : Header
  pose : Pose
  deriving DecidableEq

/-- The fields of `sensor_msgs` IMU messages that the component reads. -/
structure ImuMsg where
  header : Header
  angular_velocity : Vec3
  linear_acceleration : Vec3
  deriving DecidableEq

/-- The fields of `nav_msgs` odometry messages that the component reads
(`msg->pose.pose` flattened to `pose`). -/
structure OdomMsg where
  header : Header
  pose : Pose
  deriving DecidableEq

/-- 3x3 rational matrix (rotation blocks). -/
abbrev Mat3 := Matrix (Fin 3) (Fin 3) ℚ

/-- 4x4 rational matrix (homogeneous transforms, `Eigen::Matrix4d`). -/
abbrev Mat4 := Matrix (Fin 4) (Fin 4) ℚ

/-- Rotation matrix of a message quaternion, exactly the formula Eigen uses in
`toRotationMatrix` (no normalization of the input components). -/
def quatToRot (q : Quat4) : Mat3 :=
  !![1 - 2 * (q.qy ^ 2 + q.qz ^ 2), 2 * (q.qx * q.qy - q.qz * q.qw),
       2 * (q.qx * q.qz + q.qy * q.qw);
     2 * (q.qx * q.qy + q.qz * q.qw), 1 - 2 * (q.qx ^ 2 + q.qz ^ 2),
       2 * (q.qy * q.qz - q.qx * q.qw);
     2 * (q.qx * q.qz - q.qy * q.qw), 2 * (q.qy * q.qz + q.qx * q.qw),
       1 - 2 * (q.qx ^ 2 + q.qy ^ 2)]

/-- Homogeneous 4x4 matrix of a pose, as produced by converting the message
pose to an affine transform and taking `.matrix()`: rotation block from the
quaternion, translation in the last column, bottom row `(0,0,0,1)`. -/
def poseToMat (p : Pose) : Mat4 :=
  let r := quatToRot p.orientation
  !![r 0 0, r 0 1, r 0 2, p.position.x;
     r 1 0, r 1 1, r 1 2, p.position.y;
     r 2 0, r 2 1, r 2 2, p.position.z;
     0, 0, 0, 1]

/-- Inverse of a 4x4 matrix via the adjugate (`Eigen` `.inverse()` on an
invertible matrix computes exactly this value). -/
def mat4inv (a : Mat4) : Mat4 := (a.det)⁻¹ • a.adjugate

/-- The translation column of a homogeneous transform: entries `(0,3)`,
`(1,3)`, `(2,3)`. -/
def translationOf (m : Mat4) : Vec3 := ⟨m 0 3, m 1 3, m 2 3⟩

/-- Applying a frame transform to a stamped 3-vector (`tf2` on a
vector message) rotates the vector; no translation is applied. -/
def applyRot (r : Mat3) (v : Vec3) : Vec3 :=
  ⟨r 0 0 * v.x + r 0 1 * v.y + r 0 2 * v.z,
   r 1 0 * v.x + r 1 1 * v.y + r 1 2 * v.z,
   r 2 0 * v.x + r 2 1 * v.y + r 2 2 * v.z⟩

/-- The estimator's state vector, per the spec's data model: position and
orientation (the externally visible 7-component sub-block) plus velocity
(filter-internal).  The wrapper writes exactly these components of the
vector it hands to `setInitialX`. -/
structure EkfX where
  pos : Vec3
  vel : Vec3
  q : Quat4
  deriving DecidableEq

/-- One invocation of an operation on the estimator object `ekf_`. -/
inductive EkfOp where
  | setInitialX (x : EkfX)
  | predictionUpdate (t : ℚ) (gyro : Vec3) (acc : Vec3)
  | observationUpdate (y : Vec3) (variance : Vec3)
  deriving DecidableEq

/-- An externally observable output of the component: a published pose or a
broadcast transform. -/
inductive Output where
  | publishPose (p : PoseStamped)
  | sendTransform (stamp : Time) (frame : String) (child : String)
      (translation : Vec3) (rotation : Quat4)
  deriving DecidableEq

/-- The parameters the constructor declares and reads. -/
structure Params where
  reference_frame_id : String
  robot_frame_id : String
  var_imu_w : ℚ
  var_imu_acc : ℚ
  var_gnss_xy : ℚ
  var_gnss_z : ℚ
  var_odom_xyz : ℚ
  use_gnss : Bool
  use_odom : Bool
  use_gnss_as_initial_pose : Bool
  broadcast_tf_topic : Bool
  deriving DecidableEq

/-- The component's mutable state: configuration, the optional initial pose
(the gate for every callback), the cached current pose, the odometry anchor
pose and previous odometry matrix, the stamp of the last processed sample,
and the trace of operations invoked on the estimator object. -/
structure CompState where
  reference_frame_id : String
  robot_frame_id : String
  var_imu_w : ℚ
  var_imu_acc : ℚ
  var_gnss : Vec3
  var_odom : Vec3
  use_gnss : Bool
  use_odom : Bool
  use_gnss_as_initial_pose : Bool
  broadcast_tf_topic : Bool
  has_initial_pose_sub : Bool
  initial_pose : Option PoseStamped
  current_pose : PoseStamped
  current_pose_odom : PoseStamped
  previous_odom_mat : Mat4
  current_stamp : Time
  ekf_ops : List EkfOp

/-- A default-constructed stamped pose message (identity orientation). -/
def zeroPoseStamped : PoseStamped :=
  { header := ⟨⟨0, 0⟩, ""⟩
    pose := { position := ⟨0, 0, 0⟩, orientation := ⟨0, 0, 0, 1⟩ } }

/-- The component constructor: reads parameters, pushes the IMU noise
variances into the estimator, builds the per-source measurement-variance
vectors (`var_gnss = (xy, xy, z)`, `var_odom = (xyz, xyz, xyz)`), and creates
the subscriptions — the dedicated initial-pose subscription only when GNSS is
not configured as the initial-pose source.  `previous_odom_mat` starts as the
identity matrix, the sentinel for "no previous odometry sample" (its
initializer is in the component's header, which is not part of this source
tree; the sentinel comparison at the top of the odometry callback fixes the
value). -/
def mkComponent (p : Params) : CompState :=
  { reference_frame_id := p.reference_frame_id
    robot_frame_id := p.robot_frame_id
    var_imu_w := p.var_imu_w
    var_imu_acc := p.var_imu_acc
    var_gnss := ⟨p.var_gnss_xy, p.var_gnss_xy, p.var_gnss_z⟩
    var_odom := ⟨p.var_odom_xyz, p.var_odom_xyz, p.var_odom_xyz⟩
    use_gnss := p.use_gnss
    use_odom := p.use_odom
    use_gnss_as_initial_pose := p.use_gnss_as_initial_pose
    broadcast_tf_topic := p.broadcast_tf_topic
    has_initial_pose_sub := !p.use_gnss_as_initial_pose
    initial_pose := none
    current_pose := zeroPoseStamped
    current_pose_odom := zeroPoseStamped
    previous_odom_mat := 1
    current_stamp := ⟨0, 0⟩
    ekf_ops := [] }

/-- The state vector built inside `initialPoseCallback`: a zero vector whose
position and orientation components are then set from the message pose. -/
def mkInitX (msg : PoseStamped) : EkfX :=
  { pos := msg.pose.position
    vel := ⟨0, 0, 0⟩
    q := msg.pose.orientation }

/-- `EkfLocalizationComponent::initialPoseCallback`: stores the message as
the initial pose and the current pose, builds the initial state vector and
hands it to the estimator. -/
def initialPoseCallback (comp : CompState) (msg : PoseStamped) : CompState :=
  { comp with
    initial_pose := some msg
    current_pose := msg
    ekf_ops := comp.ekf_ops ++ [EkfOp.setInitialX (mkInitX msg)] }

/-- The stamp-to-seconds conversion in `predictUpdate`:
`sec + nanosec * 1e-9`. -/
def stampToSec (t : Time) : ℚ := (t.sec : ℚ) + (t.nanosec : ℚ) / 1000000000

/-- `EkfLocalizationComponent::predictUpdate`: records the message stamp as
the current stamp and invokes the estimator's prediction with the stamp in
seconds, the angular velocity and the linear acceleration. -/
def predictUpdate (comp : CompState) (imu : ImuMsg) : CompState :=
  { comp with
    current_stamp := imu.header.stamp
    ekf_ops := comp.ekf_ops ++
      [EkfOp.predictionUpdate (stampToSec imu.header.stamp)
        imu.angular_velocity imu.linear_acceleration] }

/-- `EkfLocalizationComponent::measurementUpdate`: records the message stamp
as the current stamp and invokes the estimator's observation update with the
position 3-vector of the pose message (the orientation is never read) and the
supplied variance vector. -/
def measurementUpdate (comp : CompState) (pose_msg : PoseStamped)
    (variance : Vec3) : CompState :=
  { comp with
    current_stamp := pose_msg.header.stamp
    ekf_ops := comp.ekf_ops ++
      [EkfOp.observationUpdate pose_msg.pose.position variance] }

/-- The IMU subscription callback.  The frame-transform lookup is an external
service; its answer is modelled as an optional rotation: `none` models a
lookup that throws (the callback catches the exception and returns with the
component unchanged), `some r` a successful lookup.  On success both the
acceleration and the angular velocity are rotated into the robot frame and a
fresh message carrying only the stamp and the transformed vectors is passed
to `predictUpdate`.  Before initialization the whole body is skipped. -/
def imuCallback (comp : CompState) (tf : Option Mat3) (msg : ImuMsg) :
    CompState :=
  if comp.initial_pose.isSome then
    match tf with
    | none => comp
    | some r =>
      predictUpdate comp
        { header := ⟨msg.header.stamp, ""⟩
          angular_velocity := applyRot r msg.angular_velocity
          linear_acceleration := applyRot r msg.linear_acceleration }
  else comp

/-- The odometry subscription callback.  Gated on initialization and
`use_odom`.  If the stored previous odometry matrix is the identity, only the
baseline is (re-)established: the anchor pose is set to the component's
current pose and the previous matrix to this sample's matrix, with no
estimator call.  Otherwise the anchor matrix is composed with the relative
motion `previous⁻¹ * current`, the translation of the result is passed as a
measurement with the odometry variance vector, and the anchor and previous
matrix are refreshed. -/
def odomCallback (comp : CompState) (msg : OdomMsg) : CompState :=
  if comp.initial_pose.isSome && comp.use_odom then
    let odom_mat := poseToMat msg.pose
    if comp.previous_odom_mat = 1 then
      { comp with
        current_pose_odom := comp.current_pose
        previous_odom_mat := odom_mat }
    else
      let current_trans :=
        poseToMat comp.current_pose_odom.pose * mat4inv comp.previous_odom_mat
          * odom_mat
      let pose : PoseStamped :=
        { header := msg.header
          pose := { position := translationOf current_trans
                    orientation := ⟨0, 0, 0, 1⟩ } }
      let comp2 := measurementUpdate comp pose comp.var_odom
      { comp2 with
        current_pose_odom := comp.current_pose
        previous_odom_mat := odom_mat }
  else comp

/-- The GNSS pose subscription callback: when GNSS is configured as the
initial-pose source and no initial pose has been received, the message seeds
the filter through `initialPoseCallback`; otherwise, when initialized and
GNSS updates are enabled, it is a measurement update with the GNSS variance
vector; otherwise nothing happens. -/
def gnssCallback (comp : CompState) (msg : PoseStamped) : CompState :=
  if comp.use_gnss_as_initial_pose && !comp.initial_pose.isSome then
    initialPoseCallback comp msg
  else if comp.initial_pose.isSome && comp.use_gnss then
    measurementUpdate comp msg comp.var_gnss
  else comp

/-- `EkfLocalizationComponent::broadcastPose`, the timer callback.  `x` is
the estimator state returned by the read-only `getX`.  When initialized, the
current pose cache is rebuilt from the position/orientation components of
`x`, stamped with the stamp of the most recently processed sample and the
reference frame id, and published; when TF broadcast is enabled a transform
carrying the identical translation and rotation is also sent.  Before
initialization nothing is published (only a warning is logged). -/
def broadcastPose (comp : CompState) (x : EkfX) : CompState × List Output :=
  if comp.initial_pose.isSome then
    let pose : PoseStamped :=
      { header := ⟨comp.current_stamp, comp.reference_frame_id⟩
        pose := { position := x.pos, orientation := x.q } }
    ({ comp with current_pose := pose },
      [Output.publishPose pose] ++
        (if comp.broadcast_tf_topic then
          [Output.sendTransform comp.current_stamp comp.reference_frame_id
            comp.robot_frame_id x.pos x.q]
        else []))
  else (comp, [])

/-- The orientation stored by the most recent estimator-initialization call,
if the last estimator operation was one. -/
def storedInitQuat (comp : CompState) : Option Quat4 :=
  match comp.ekf_ops.getLast? with
  | some (EkfOp.setInitialX x) => some x.q
  | _ => none

/-- Modelled from the spec: the estimator core (the class providing
`setInitialX`) is not under `src/`.  Per the spec, initialization "sets
position/orientation sub-block of `x` to the given pose; zeroes velocity":
the supplied vector replaces the state, the previous state is discarded. -/
def setInitialX (_prev x : EkfX) : EkfX := x

/-- Modelled from the spec: the estimator core (the class providing `getX`)
is not under `src/`.  `getX` returns the current state vector as a read-only
snapshot. -/
def getX (x : EkfX) : EkfX := x

/-- A pure quaternion (zero real part) with the given imaginary parts. -/
def pureQ (a b c : ℝ) : Quaternion ℝ := ⟨0, a, b, c⟩

/-- Normalization of a real quaternion: division by the square root of the
squared norm. -/
noncomputable def quatNormalize (q : Quaternion ℝ) : Quaternion ℝ :=
  (Real.sqrt (Quaternion.normSq q))⁻¹ • q

/-- Modelled from the spec: the estimator core (the class providing
`predictionUpdate`) is not under `src/`.  Per the spec, one accepted
prediction step propagates the orientation by Euler-integrating the
quaternion derivative `q + (dt/2) * (q * (0, w))` and then re-normalizing. -/
noncomputable def predictQuat (q : Quaternion ℝ) (w : ℝ × ℝ × ℝ) (dt : ℝ) :
    Quaternion ℝ :=
  quatNormalize (q + (dt / 2) • (q * pureQ w.1 w.2.1 w.2.2))

/-- The orientation after a sequence of prediction steps, each given by an
angular-velocity 3-vector and a time increment. -/
noncomputable def predictQuatSeq (q : Quaternion ℝ)
    (steps : List ((ℝ × ℝ × ℝ) × ℝ)) : Quaternion ℝ :=
  steps.foldl (fun cur s => predictQuat cur s.1 s.2) q

/-- A message quaternion as a real quaternion (`w` is the real part). -/
noncomputable def castQuat (q : Quat4) : Quaternion ℝ :=
  ⟨(q.qw : ℝ), (q.qx : ℝ), (q.qy : ℝ), (q.qz : ℝ)⟩

/-! Concrete fixtures used by witnesses and counterexamples. -/

/-- The declared parameter defaults of the component. -/
def pDefault : Params :=
  { reference_frame_id := "map"
    robot_frame_id := "base_link"
    var_imu_w := 1 / 100
    var_imu_acc := 1 / 100
    var_gnss_xy := 1 / 10
    var_gnss_z := 3 / 20
    var_odom_xyz := 1 / 5
    use_gnss := true
    use_odom := false
    use_gnss_as_initial_pose := false
    broadcast_tf_topic := true }

/-- Default parameters with odometry correction enabled. -/
def pOdom : Params := { pDefault with use_odom := true }

/-- Default parameters with GNSS configured as the initial-pose source. -/
def pSeed : Params := { pDefault with use_gnss_as_initial_pose := true }

/-- A freshly constructed (uninitialized) component with default parameters. -/
def compU : CompState := mkComponent pDefault

/-- A freshly constructed component seeded by GNSS configuration. -/
def compSeed : CompState := mkComponent pSeed

/-- An IMU message fixture. -/
def imuW : ImuMsg :=
  { header := ⟨⟨5, 0⟩, "imu_link"⟩
    angular_velocity := ⟨1, 2, 3⟩
    linear_acceleration := ⟨4, 5, 6⟩ }

/-- An odometry message fixture. -/
def odomW : OdomMsg :=
  { header := ⟨⟨6, 0⟩, "odom"⟩
    pose := { position := ⟨2, 0, 0⟩, orientation := ⟨0, 0, 0, 1⟩ } }

/-- A GNSS pose message fixture. -/
def gnssW : PoseStamped :=
  { header := ⟨⟨7, 0⟩, "map"⟩
    pose := { position := ⟨8, 9, 10⟩, orientation := ⟨0, 0, 0, 1⟩ } }

/-- A pose message with position `(1,2,3)` and orientation `(0,0,0,1)`. -/
def msg123 : PoseStamped :=
  { header := ⟨⟨1, 0⟩, "map"⟩
    pose := { position := ⟨1, 2, 3⟩, orientation := ⟨0, 0, 0, 1⟩ } }

/-- A homogeneous transform that translates by `(1,0,0)`: invertible and
different from the identity. -/
def tMat : Mat4 := !![1, 0, 0, 1; 0, 1, 0, 0; 0, 0, 1, 0; 0, 0, 0, 1]

/-- An initialized component with odometry enabled and a non-identity stored
previous odometry matrix. -/
def compO : CompState :=
  { initialPoseCallback (mkComponent pOdom) msg123 with
    previous_odom_mat := tMat }

/-- An initialized component with odometry enabled, previous odometry matrix
still the identity sentinel. -/
def compB : CompState := initialPoseCallback (mkComponent pOdom) msg123

/-- An odometry message whose pose is exactly the identity transform. -/
def odomIdMsg : OdomMsg :=
  { header := ⟨⟨9, 0⟩, "odom"⟩
    pose := { position := ⟨0, 0, 0⟩, orientation := ⟨0, 0, 0, 1⟩ } }

/-! Claim theorems. -/

/-- C1: before initialization every inertial and absolute-position sample is
a silent no-op: the entire component state — in particular the trace of
estimator operations — is unchanged, no estimator call is made, and the pose
broadcast publishes nothing.  (A GNSS sample arriving before initialization
while GNSS is configured as the initial-pose source is consumed as the
initialization itself, not as a measurement update; that path is claim C5's
subject.)  All callbacks are total functions, so no failure is raised. -/
theorem C1_silent_noop_before_init (comp : CompState) (tf : Option Mat3)
    (imu : ImuMsg) (odom : OdomMsg) (gnss : PoseStamped) (x : EkfX)
    (h : comp.initial_pose = none) :
    imuCallback comp tf imu = comp ∧
    odomCallback comp odom = comp ∧
    (comp.use_gnss_as_initial_pose = false → gnssCallback comp gnss = comp) ∧
    broadcastPose comp x = (comp, []) := by
  refine ⟨?_, ?_, ?_, ?_⟩
  · simp [imuCallback, h]
  · simp [odomCallback, h]
  · intro hg
    simp [gnssCallback, h, hg]
  · simp [broadcastPose, h]

/-- Witness for C1 at a concrete uninitialized component and concrete
samples. -/
theorem C1_witness :
    imuCallback compU (some 1) imuW = compU ∧
    odomCallback compU odomW = compU ∧
    gnssCallback compU gnssW = compU ∧
    broadcastPose compU ⟨⟨0, 0, 0⟩, ⟨0, 0, 0⟩, ⟨0, 0, 0, 1⟩⟩ = (compU, []) := by
  have h := C1_silent_noop_before_init compU (some 1) imuW odomW gnssW
    ⟨⟨0, 0, 0⟩, ⟨0, 0, 0⟩, ⟨0, 0, 0, 1⟩⟩ rfl
  exact ⟨h.1, h.2.1, h.2.2.1 rfl, h.2.2.2⟩

/-- C2: initialization hands the estimator a state vector whose
position/orientation sub-block is exactly the supplied pose and all of whose
other components (the velocity block) are zero; reading the state back
through the (spec-modelled) `setInitialX`/`getX` pair yields that vector
unchanged.  In particular, initializing with `((1,2,3),(0,0,0,1))` stores
exactly `(1,2,3,0,0,0,1)`. -/
theorem C2_initialize_sets_pose_block (comp : CompState) (msg : PoseStamped)
    (prev : EkfX) :
    (initialPoseCallback comp msg).ekf_ops
      = comp.ekf_ops ++ [EkfOp.setInitialX (mkInitX msg)] ∧
    (mkInitX msg).pos = msg.pose.position ∧
    (mkInitX msg).q = msg.pose.orientation ∧
    (mkInitX msg).vel = ⟨0, 0, 0⟩ ∧
    getX (setInitialX prev (mkInitX msg)) = mkInitX msg ∧
    mkInitX msg123 = ⟨⟨1, 2, 3⟩, ⟨0, 0, 0⟩, ⟨0, 0, 0, 1⟩⟩ := by
  exact ⟨rfl, rfl, rfl, rfl, rfl, rfl⟩

/-- The squared norm of `1 + s • (0, a, b, c)` is `1 + s^2 (a^2+b^2+c^2)`. -/
theorem normSq_one_add_smul_pureQ (s a b c : ℝ) :
    Quaternion.normSq (1 + s • pureQ a b c)
      = 1 + s ^ 2 * (a ^ 2 + b ^ 2 + c ^ 2) := by
  simp only [pureQ, Quaternion.normSq_def', Quaternion.add_re,
    Quaternion.add_imI, Quaternion.add_imJ, Quaternion.add_imK,
    Quaternion.one_re, Quaternion.one_imI, Quaternion.one_imJ,
    Quaternion.one_imK, Quaternion.smul_re, Quaternion.smul_imI,
    Quaternion.smul_imJ, Quaternion.smul_imK, smul_eq_mul]
  ring

/-- Normalizing a quaternion of positive squared norm yields squared norm 1. -/
theorem normSq_quatNormalize (q : Quaternion ℝ)
    (h : 0 < Quaternion.normSq q) :
    Quaternion.normSq (quatNormalize q) = 1 := by
  rw [quatNormalize, Quaternion.normSq_smul, inv_pow, Real.sq_sqrt h.le]
  exact inv_mul_cancel₀ (ne_of_gt h)

/-- One spec-modelled prediction step preserves the unit-norm invariant. -/
theorem normSq_predictQuat (q : Quaternion ℝ) (w : ℝ × ℝ × ℝ) (dt : ℝ)
    (h : Quaternion.normSq q = 1) :
    Quaternion.normSq (predictQuat q w dt) = 1 := by
  have key : q + (dt / 2) • (q * pureQ w.1 w.2.1 w.2.2)
      = q * (1 + (dt / 2) • pureQ w.1 w.2.1 w.2.2) := by
    rw [mul_add, mul_one, mul_smul_comm]
  rw [predictQuat, key]
  apply normSq_quatNormalize
  rw [map_mul, h, one_mul, normSq_one_add_smul_pureQ]
  positivity

/-- Every sequence of spec-modelled prediction steps preserves the unit-norm
invariant. -/
theorem normSq_predictQuatSeq (steps : List ((ℝ × ℝ × ℝ) × ℝ))
    (q : Quaternion ℝ) (h : Quaternion.normSq q = 1) :
    Quaternion.normSq (predictQuatSeq q steps) = 1 := by
  induction steps generalizing q with
  | nil => simpa [predictQuatSeq] using h
  | cons s rest ih =>
    simp only [predictQuatSeq, List.foldl_cons] at ih ⊢
    exact ih (predictQuat q s.1 s.2) (normSq_predictQuat q s.1 s.2 h)

/-- C3: starting from a unit-norm orientation (as initialization provides),
after every prefix of any sequence of prediction calls the orientation
quaternion has squared norm exactly 1 — each step re-normalizes before
returning, so the norm stays within any fixed tolerance of 1. -/
theorem C3_unit_norm_invariant (q : Quaternion ℝ)
    (steps : List ((ℝ × ℝ × ℝ) × ℝ)) (k : ℕ)
    (h : Quaternion.normSq q = 1) :
    Quaternion.normSq (predictQuatSeq q (steps.take k)) = 1 :=
  normSq_predictQuatSeq (steps.take k) q h

/-- Witness for C3: one concrete prediction step from the identity
orientation. -/
theorem C3_witness :
    Quaternion.normSq (predictQuatSeq 1 (List.take 1 [((1, 0, 0), 1)])) = 1 :=
  C3_unit_norm_invariant 1 [((1, 0, 0), 1)] 1 (by simp)

/-- A pose message whose quaternion `(0,0,0,2)` is not unit-norm. -/
def msgQ2 : PoseStamped :=
  { header := ⟨⟨2, 0⟩, "map"⟩
    pose := { position := ⟨0, 0, 0⟩, orientation := ⟨0, 0, 0, 2⟩ } }

/-- C4 counterexample: initializing with the non-unit quaternion `(0,0,0,2)`
stores `(0,0,0,2)` itself in the state vector handed to the estimator, and
that quaternion is not the unit-normalized version of the input (which is
`(0,0,0,1)`), so initialization does not defensively re-normalize. -/
theorem C4_counterexample :
    storedInitQuat (initialPoseCallback compU msgQ2) = some ⟨0, 0, 0, 2⟩ ∧
    castQuat ⟨0, 0, 0, 2⟩ ≠ quatNormalize (castQuat ⟨0, 0, 0, 2⟩) := by
  refine ⟨rfl, ?_⟩
  intro heq
  have h4 : Quaternion.normSq (castQuat ⟨0, 0, 0, 2⟩) = 4 := by
    simp [castQuat, Quaternion.normSq_def']
    norm_num
  have hs : Real.sqrt (Quaternion.normSq (castQuat ⟨0, 0, 0, 2⟩)) = 2 := by
    rw [h4, show (4 : ℝ) = 2 ^ 2 by norm_num,
      Real.sqrt_sq (by norm_num : (0 : ℝ) ≤ 2)]
  have hre := congrArg Quaternion.re heq
  rw [quatNormalize, hs] at hre
  simp [castQuat, Quaternion.smul_re, smul_eq_mul] at hre

/-- C4 amended: initialization performs no defensive re-normalization — the
orientation stored in the state vector handed to the estimator is the
supplied quaternion verbatim, whether or not it is unit-norm (it equals the
unit-normalized input exactly when the input was already unit-norm). -/
theorem C4_amended_stores_verbatim (comp : CompState) (msg : PoseStamped) :
    storedInitQuat (initialPoseCallback comp msg)
      = some msg.pose.orientation := by
  simp [storedInitQuat, initialPoseCallback, mkInitX, List.getLast?_concat]

/-- C5: the initial-pose source is mutually exclusive by configuration.  The
constructor creates the dedicated initial-pose subscription exactly when GNSS
is not configured as the initial-pose source; when GNSS is the configured
source, the first GNSS pose received before initialization seeds the filter
(it runs the initialization path, recording `setInitialX` and no measurement
update); when GNSS is not the configured source the GNSS callback never
initializes the filter and only ever records a measurement update (or
nothing). -/
theorem C5_initial_pose_source_exclusive (p : Params) (comp : CompState)
    (msg : PoseStamped) :
    (mkComponent p).has_initial_pose_sub = !p.use_gnss_as_initial_pose ∧
    (comp.use_gnss_as_initial_pose = true → comp.initial_pose = none →
      gnssCallback comp msg = initialPoseCallback comp msg ∧
      (gnssCallback comp msg).initial_pose = some msg ∧
      (gnssCallback comp msg).ekf_ops
        = comp.ekf_ops ++ [EkfOp.setInitialX (mkInitX msg)]) ∧
    (comp.use_gnss_as_initial_pose = false →
      (gnssCallback comp msg).initial_pose = comp.initial_pose ∧
      ((gnssCallback comp msg).ekf_ops = comp.ekf_ops ∨
        (gnssCallback comp msg).ekf_ops = comp.ekf_ops ++
          [EkfOp.observationUpdate msg.pose.position comp.var_gnss])) := by
  refine ⟨rfl, ?_, ?_⟩
  · intro hg hi
    refine ⟨?_, ?_, ?_⟩ <;> simp [gnssCallback, hg, hi, initialPoseCallback]
  · intro hg
    by_cases hi : comp.initial_pose.isSome = true
    · by_cases hu : comp.use_gnss = true
      · exact ⟨by simp [gnssCallback, hg, hi, hu, measurementUpdate],
          Or.inr (by simp [gnssCallback, hg, hi, hu, measurementUpdate])⟩
      · have hu' : comp.use_gnss = false := by simpa using hu
        exact ⟨by simp [gnssCallback, hg, hi, hu'],
          Or.inl (by simp [gnssCallback, hg, hi, hu'])⟩
    · have hi' : comp.initial_pose.isSome = false := by simpa using hi
      exact ⟨by simp [gnssCallback, hg, hi'],
        Or.inl (by simp [gnssCallback, hg, hi'])⟩

/-- Witness for C5: with GNSS configured as the initial-pose source, a fresh
component has no dedicated initial-pose subscription and the first GNSS pose
seeds the filter. -/
theorem C5_witness :
    (mkComponent pSeed).has_initial_pose_sub = false ∧
    (gnssCallback compSeed gnssW).initial_pose = some gnssW := by
  have h := C5_initial_pose_source_exclusive pSeed compSeed gnssW
  exact ⟨h.1, (h.2.1 rfl rfl).2.1⟩

/-- C6: for every inertial sample processed after initialization, a
successful frame-transform lookup rotates both the angular velocity and the
linear acceleration into the robot frame before the prediction is invoked
with exactly the rotated vectors; a failed lookup leaves the component (and
thus the estimator trace) completely unchanged, so later samples are still
processed. -/
theorem C6_imu_frame_transform (comp : CompState) (r : Mat3) (msg : ImuMsg)
    (h : comp.initial_pose.isSome = true) :
    (imuCallback comp (some r) msg).ekf_ops
      = comp.ekf_ops ++ [EkfOp.predictionUpdate (stampToSec msg.header.stamp)
          (applyRot r msg.angular_velocity)
          (applyRot r msg.linear_acceleration)] ∧
    imuCallback comp none msg = comp := by
  constructor
  · simp [imuCallback, h, predictUpdate]
  · simp [imuCallback, h]

/-- Witness for C6 at a concrete initialized component, the identity
transform and a failed lookup. -/
theorem C6_witness :
    (imuCallback compB (some 1) imuW).ekf_ops
      = compB.ekf_ops ++ [EkfOp.predictionUpdate (stampToSec imuW.header.stamp)
          (applyRot 1 imuW.angular_velocity)
          (applyRot 1 imuW.linear_acceleration)] ∧
    imuCallback compB none imuW = compB :=
  C6_imu_frame_transform compB 1 imuW rfl

/-- C7: each absolute-position source carries its own diagonal variance
3-vector: the constructor builds `(var_gnss_xy, var_gnss_xy, var_gnss_z)` for
GNSS and `(var_odom_xyz, var_odom_xyz, var_odom_xyz)` for odometry, every
GNSS-sourced update is recorded with the former, and every odometry-sourced
update with the latter. -/
theorem C7_per_source_variances (p : Params) (comp : CompState)
    (gnss : PoseStamped) (odom : OdomMsg)
    (h : comp.initial_pose.isSome = true) :
    (mkComponent p).var_gnss = ⟨p.var_gnss_xy, p.var_gnss_xy, p.var_gnss_z⟩ ∧
    (mkComponent p).var_odom
      = ⟨p.var_odom_xyz, p.var_odom_xyz, p.var_odom_xyz⟩ ∧
    (comp.use_gnss = true →
      (gnssCallback comp gnss).ekf_ops = comp.ekf_ops ++
        [EkfOp.observationUpdate gnss.pose.position comp.var_gnss]) ∧
    (comp.use_odom = true → comp.previous_odom_mat ≠ 1 →
      (odomCallback comp odom).ekf_ops = comp.ekf_ops ++
        [EkfOp.observationUpdate
          (translationOf (poseToMat comp.current_pose_odom.pose
            * mat4inv comp.previous_odom_mat * poseToMat odom.pose))
          comp.var_odom]) := by
  refine ⟨rfl, rfl, ?_, ?_⟩
  · intro hu
    simp [gnssCallback, h, hu, measurementUpdate]
  · intro hu hp
    simp [odomCallback, h, hu, hp, measurementUpdate]

/-- Witness for C7 at the default parameters and a concrete initialized
component. -/
theorem C7_witness :
    (mkComponent pDefault).var_gnss = ⟨1 / 10, 1 / 10, 3 / 20⟩ ∧
    (gnssCallback compO gnssW).ekf_ops = compO.ekf_ops ++
      [EkfOp.observationUpdate gnssW.pose.position compO.var_gnss] := by
  have h := C7_per_source_variances pDefault compO gnssW odomW rfl
  exact ⟨h.1, h.2.2.1 rfl⟩

/-- A state-vector fixture for broadcast witnesses. -/
def xW : EkfX := ⟨⟨1, 2, 3⟩, ⟨0, 0, 0⟩, ⟨0, 0, 0, 1⟩⟩

/-- C8: the pose broadcast is a pull-based read of the estimator.  After
initialization each invocation leaves the estimator trace unchanged (`getX`
is a read-only snapshot), publishes the position/orientation sub-block of the
read state stamped with the stamp of the most recently processed sample
(every prediction and every measurement update refresh that stamp to its
message's stamp) and the reference frame id, and — exactly when TF broadcast
is enabled — additionally sends a transform whose translation and rotation
are identical to the published pose; before initialization nothing is
published. -/
theorem C8_broadcast_pull_read (comp : CompState) (x : EkfX) (imu : ImuMsg)
    (pm : PoseStamped) (v : Vec3)
    (h : comp.initial_pose.isSome = true) :
    (broadcastPose comp x).1.ekf_ops = comp.ekf_ops ∧
    getX x = x ∧
    (broadcastPose comp x).2
      = Output.publishPose
          { header := ⟨comp.current_stamp, comp.reference_frame_id⟩
            pose := { position := x.pos, orientation := x.q } } ::
        (if comp.broadcast_tf_topic then
          [Output.sendTransform comp.current_stamp comp.reference_frame_id
            comp.robot_frame_id x.pos x.q]
        else []) ∧
    (predictUpdate comp imu).current_stamp = imu.header.stamp ∧
    (measurementUpdate comp pm v).current_stamp = pm.header.stamp ∧
    (∀ c : CompState, c.initial_pose = none → broadcastPose c x = (c, [])) := by
  refine ⟨by simp [broadcastPose, h], rfl, by simp [broadcastPose, h],
    rfl, rfl, ?_⟩
  intro c hc
  simp [broadcastPose, hc]

/-- Witness for C8 at a concrete initialized component with TF broadcast
enabled. -/
theorem C8_witness :
    (broadcastPose compB xW).1.ekf_ops = compB.ekf_ops ∧
    (broadcastPose compB xW).2
      = Output.publishPose
          { header := ⟨compB.current_stamp, compB.reference_frame_id⟩
            pose := { position := xW.pos, orientation := xW.q } } ::
        [Output.sendTransform compB.current_stamp compB.reference_frame_id
          compB.robot_frame_id xW.pos xW.q] := by
  have h := C8_broadcast_pull_read compB xW imuW gnssW ⟨1, 1, 1⟩ rfl
  refine ⟨h.1, ?_⟩
  rw [h.2.2.1]
  rfl

/-- The translation column of `b * poseToMat p` does not depend on the
orientation stored in `p`: the last column of a pose matrix is the
translation and `1`. -/
theorem translationOf_mul_poseToMat (b : Mat4) (p : Pose) (q' : Quat4) :
    translationOf (b * poseToMat { position := p.position, orientation := q' })
      = translationOf (b * poseToMat p) := by
  simp [translationOf, poseToMat, Matrix.mul_apply, Fin.sum_univ_four]

/-- C9: every applied odometry correction is relative.  With the filter
initialized, odometry enabled and a previous odometry matrix stored, the
measurement recorded is the translation of
`anchor * previous⁻¹ * current`; afterwards the anchor is refreshed to the
component's current pose snapshot and the previous odometry matrix to the
current sample's matrix.  Moreover the recorded translation is unchanged if
the odometry message's orientation is replaced by any other quaternion, and
a GNSS pose message's orientation never affects the GNSS callback at all
once the filter is initialized. -/
theorem C9_odom_relative_update (comp : CompState) (msg : OdomMsg)
    (q' : Quat4)
    (h1 : comp.initial_pose.isSome = true) (h2 : comp.use_odom = true)
    (h3 : comp.previous_odom_mat ≠ 1) :
    (odomCallback comp msg).ekf_ops = comp.ekf_ops ++
      [EkfOp.observationUpdate
        (translationOf (poseToMat comp.current_pose_odom.pose
          * mat4inv comp.previous_odom_mat * poseToMat msg.pose))
        comp.var_odom] ∧
    (odomCallback comp msg).current_pose_odom = comp.current_pose ∧
    (odomCallback comp msg).previous_odom_mat = poseToMat msg.pose ∧
    translationOf (poseToMat comp.current_pose_odom.pose
        * mat4inv comp.previous_odom_mat
        * poseToMat { position := msg.pose.position, orientation := q' })
      = translationOf (poseToMat comp.current_pose_odom.pose
        * mat4inv comp.previous_odom_mat * poseToMat msg.pose) ∧
    (∀ (c : CompState) (g : PoseStamped) (qg : Quat4),
      c.initial_pose.isSome = true → c.use_gnss = true →
      gnssCallback c { header := g.header
                       pose := { position := g.pose.position
                                 orientation := qg } }
        = gnssCallback c g) := by
  refine ⟨?_, ?_, ?_, translationOf_mul_poseToMat _ _ _, ?_⟩
  · simp [odomCallback, h1, h2, h3, measurementUpdate]
  · simp [odomCallback, h1, h2, h3, measurementUpdate]
  · simp [odomCallback, h1, h2, h3, measurementUpdate]
  · intro c g qg hc hg
    simp [gnssCallback, hc, hg, measurementUpdate]

/-- The translation-by-`(1,0,0)` transform differs from the identity. -/
theorem tMat_ne_one : tMat ≠ (1 : Mat4) := by
  intro h
  have h03 := congrFun (congrFun h 0) 3
  simp [tMat, Matrix.one_apply] at h03

/-- Witness for C9 at a concrete initialized component with a stored
non-identity previous odometry matrix. -/
theorem C9_witness :
    (odomCallback compO odomW).current_pose_odom = compO.current_pose ∧
    (odomCallback compO odomW).previous_odom_mat = poseToMat odomW.pose := by
  have h := C9_odom_relative_update compO odomW ⟨0, 0, 0, 1⟩ rfl rfl tMat_ne_one
  exact ⟨h.2.1, h.2.2.1⟩

/-- C10 counterexample: an odometry message whose pose is exactly the
identity transform, arriving while the stored previous odometry matrix is
not the identity, is not treated as a first sample: the callback performs a
measurement update (the estimator trace grows), contradicting the claim that
every identity-pose odometry message only re-establishes the baseline. -/
theorem C10_counterexample :
    poseToMat odomIdMsg.pose = 1 ∧
    (odomCallback compO odomIdMsg).ekf_ops ≠ compO.ekf_ops := by
  constructor
  · ext i j
    fin_cases i <;> fin_cases j <;>
      norm_num [odomIdMsg, poseToMat, quatToRot, Matrix.one_apply,
        Matrix.vecHead, Matrix.vecTail, Fin.ext_iff]
  · have hi : compO.initial_pose.isSome = true := rfl
    have hu : compO.use_odom = true := rfl
    have hp : compO.previous_odom_mat ≠ 1 := tMat_ne_one
    have hops : (odomCallback compO odomIdMsg).ekf_ops
        = compO.ekf_ops ++ [EkfOp.observationUpdate
            (translationOf (poseToMat compO.current_pose_odom.pose
              * mat4inv compO.previous_odom_mat * poseToMat odomIdMsg.pose))
            compO.var_odom] := by
      simp [odomCallback, hi, hu, hp, measurementUpdate]
    rw [hops]
    intro h
    have hlen := congrArg List.length h
    simp at hlen

/-- C10 amended: first-sample detection is solely via the sentinel "stored
previous odometry matrix equals the identity": whenever the stored matrix is
the identity the callback only re-establishes the baseline (no estimator
call; anchor set to the current pose, previous matrix to this sample's
matrix), even if genuine previous samples exist.  An identity-pose message
itself is processed as an ordinary sample, but — since every processed sample
stores its pose matrix as the new baseline — it leaves the identity behind as
the stored matrix, so the next sample is treated as a first sample: an
identity odometry pose is indistinguishable from "no previous sample" for
all subsequent processing. -/
theorem C10_amended_identity_sentinel (comp : CompState) (msg : OdomMsg)
    (h1 : comp.initial_pose.isSome = true) (h2 : comp.use_odom = true) :
    (comp.previous_odom_mat = 1 →
      (odomCallback comp msg).ekf_ops = comp.ekf_ops ∧
      (odomCallback comp msg).current_pose_odom = comp.current_pose ∧
      (odomCallback comp msg).previous_odom_mat = poseToMat msg.pose) ∧
    (odomCallback comp msg).previous_odom_mat = poseToMat msg.pose := by
  constructor
  · intro hp
    refine ⟨?_, ?_, ?_⟩ <;> simp [odomCallback, h1, h2, hp]
  · by_cases hp : comp.previous_odom_mat = 1
    · simp [odomCallback, h1, h2, hp]
    · simp [odomCallback, h1, h2, hp, measurementUpdate]

/-- Witness for C10's amended statement at a concrete initialized component
whose stored previous odometry matrix is still the identity sentinel. -/
theorem C10_witness :
    (odomCallback compB odomW).ekf_ops = compB.ekf_ops ∧
    (odomCallback compB odomW).previous_odom_mat = poseToMat odomW.pose := by
  have h := C10_amended_identity_sentinel compB odomW rfl rfl
  exact ⟨(h.1 rfl).1, h.2⟩

end KalmanFilterLocalization
